import Mathlib

/-!
Verification development for the GLB → voxel → Minecraft-block conversion core
(`createbuild_glb_to_vox.py`).  The Python source is shallowly embedded:
float64 color arithmetic is modelled over `ℚ` (exact), numpy arrays become
lists, and the environment-variable configuration defaults become constants.
-/

namespace GlbVox

/-- RGBA color, one numpy row of a `[N,4]` float array. -/
structure Color where
  r : ℚ
  g : ℚ
  b : ℚ
  a : ℚ
  deriving DecidableEq, Repr

/-- Kernel-reducible `max` on ℚ (`np.maximum` / Python `max`). -/
def qmax (a b : ℚ) : ℚ := if a ≤ b then b else a

/-- Kernel-reducible `min` on ℚ. -/
def qmin (a b : ℚ) : ℚ := if a ≤ b then a else b

/-- Kernel-reducible absolute value on ℚ. -/
def qabs (x : ℚ) : ℚ := if x < 0 then -x else x

/-- Kernel-reducible `max` on ℤ. -/
def zmax (a b : ℤ) : ℤ := if a ≤ b then b else a

/-- Kernel-reducible `min` on ℤ. -/
def zmin (a b : ℤ) : ℤ := if a ≤ b then a else b

/-- Kernel-reducible absolute value on ℤ. -/
def zabs (x : ℤ) : ℤ := if x < 0 then -x else x

/-- `np.clip(x, lo, hi)` for a scalar. -/
def clipQ (lo hi x : ℚ) : ℚ := qmin hi (qmax lo x)

/-- Python float modulo `x % m` (result has the sign of `m`): `x - m * floor (x / m)`. -/
def qmod (x m : ℚ) : ℚ := x - m * (Int.floor (x / m) : ℚ)

/-- First index of the minimum of a list (the behavior of `np.argmin`): a later
element replaces the incumbent only when strictly smaller. -/
def argminQ (xs : List ℚ) : ℕ :=
  (xs.foldl
    (fun st x =>
      let best := st.1
      let i := st.2.1
      let bestVal := st.2.2
      if x < bestVal then (i, i + 1, x) else (best, i + 1, bestVal))
    (0, 0, (xs.headD 0))).1

-- Configuration defaults (env-var defaults in the source header).
def ALPHA_CUTOUT : ℚ := 20
def ALPHA_GLASS_MAX : ℚ := 210
def VIVID_SAT_THRESHOLD : ℚ := 22 / 100
def USE_TEXTURE_ALPHA : Bool := false

/-- `_rgb_to_hsv_np`, one row.  Mirrors the masked numpy assignments: since the
`b`-max mask is written last it wins on overlap, then the `g`-max mask, then
the `r`-max mask. -/
def rgbToHsv (r0 g0 b0 : ℚ) : ℚ × ℚ × ℚ :=
  let r := clipQ 0 1 (r0 / 255)
  let g := clipQ 0 1 (g0 / 255)
  let b := clipQ 0 1 (b0 / 255)
  let cmax := qmax (qmax r g) b
  let cmin := qmin (qmin r g) b
  let delta := cmax - cmin
  let hue :=
    if delta > 1 / 1000000 then
      if cmax = b then (((r - g) / delta) + 4) / 6
      else if cmax = g then (((b - r) / delta) + 2) / 6
      else (qmod ((g - b) / delta) 6) / 6
    else 0
  let sat := if cmax > 1 / 1000000 then delta / cmax else 0
  (hue, sat, cmax)

/-- `_nearest_palette_indices`: weighted squared RGB distance with channel
weights `(2, 4, 3)`, first minimal index. -/
def nearestPaletteIdx (r g b : ℚ) (pal : List (ℚ × ℚ × ℚ)) : ℕ :=
  argminQ (pal.map (fun p =>
    let dr := r - p.1
    let dg := g - p.2.1
    let db := b - p.2.2
    dr * dr * 2 + dg * dg * 4 + db * db * 3))

/-- `_nearest_hsv_palette_indices`: circular hue distance, weights 3.4 / 1.2 / 0.7. -/
def nearestHsvIdx (hsv : ℚ × ℚ × ℚ) (palHsv : List (ℚ × ℚ × ℚ)) : ℕ :=
  argminQ (palHsv.map (fun p =>
    let hd0 := qabs (hsv.1 - p.1)
    let hd := qmin hd0 (1 - hd0)
    let sd := hsv.2.1 - p.2.1
    let vd := hsv.2.2 - p.2.2
    (hd * (17 / 5)) ^ 2 + (sd * (6 / 5)) ^ 2 + (vd * (7 / 10)) ^ 2))

/-- The `concrete` palette literal in `_map_colors_to_blocks`. -/
def concretePalette : List ((ℚ × ℚ × ℚ) × String) :=
  [
   ((207, 213, 214), "minecraft:white_concrete"),
   ((121, 42, 172), "minecraft:purple_concrete"),
   ((44, 46, 143), "minecraft:blue_concrete"),
   ((71, 79, 82), "minecraft:gray_concrete"),
   ((8, 10, 15), "minecraft:black_concrete"),
   ((142, 32, 32), "minecraft:red_concrete"),
   ((224, 97, 0), "minecraft:orange_concrete"),
   ((241, 175, 21), "minecraft:yellow_concrete"),
   ((94, 168, 24), "minecraft:lime_concrete"),
   ((21, 119, 136), "minecraft:cyan_concrete"),
   ((169, 48, 159), "minecraft:magenta_concrete"),
   ((214, 101, 143), "minecraft:pink_concrete"),
   ((36, 137, 199), "minecraft:light_blue_concrete"),
   ((125, 74, 48), "minecraft:brown_concrete"),
   ((83, 109, 27), "minecraft:green_concrete"),
   ((125, 125, 125), "minecraft:light_gray_concrete")
  ]

/-- The `wool` palette literal in `_map_colors_to_blocks`. -/
def woolPalette : List ((ℚ × ℚ × ℚ) × String) :=
  [
   ((234, 236, 237), "minecraft:white_wool"),
   ((22, 22, 26), "minecraft:black_wool"),
   ((161, 39, 34), "minecraft:red_wool"),
   ((240, 118, 19), "minecraft:orange_wool"),
   ((248, 198, 39), "minecraft:yellow_wool"),
   ((112, 185, 25), "minecraft:lime_wool"),
   ((20, 180, 133), "minecraft:cyan_wool"),
   ((60, 68, 170), "minecraft:blue_wool"),
   ((121, 42, 172), "minecraft:purple_wool"),
   ((189, 68, 179), "minecraft:magenta_wool"),
   ((58, 175, 217), "minecraft:light_blue_wool"),
   ((237, 141, 172), "minecraft:pink_wool"),
   ((141, 145, 146), "minecraft:light_gray_wool"),
   ((62, 68, 71), "minecraft:gray_wool"),
   ((114, 71, 40), "minecraft:brown_wool"),
   ((84, 109, 27), "minecraft:green_wool")
  ]

/-- The `terracotta` palette literal in `_map_colors_to_blocks`. -/
def terracottaPalette : List ((ℚ × ℚ × ℚ) × String) :=
  [
   ((209, 178, 161), "minecraft:white_terracotta"),
   ((61, 41, 35), "minecraft:black_terracotta"),
   ((143, 61, 46), "minecraft:red_terracotta"),
   ((161, 83, 37), "minecraft:orange_terracotta"),
   ((186, 133, 35), "minecraft:yellow_terracotta"),
   ((103, 117, 52), "minecraft:lime_terracotta"),
   ((86, 91, 91), "minecraft:cyan_terracotta"),
   ((74, 59, 91), "minecraft:blue_terracotta"),
   ((118, 70, 86), "minecraft:purple_terracotta"),
   ((150, 88, 109), "minecraft:magenta_terracotta"),
   ((113, 108, 137), "minecraft:light_blue_terracotta"),
   ((162, 78, 79), "minecraft:pink_terracotta"),
   ((135, 107, 98), "minecraft:light_gray_terracotta"),
   ((58, 42, 36), "minecraft:brown_terracotta"),
   ((76, 83, 42), "minecraft:green_terracotta"),
   ((152, 94, 68), "minecraft:terracotta")
  ]

/-- The `natural` palette literal in `_map_colors_to_blocks`. -/
def naturalPalette : List ((ℚ × ℚ × ℚ) × String) :=
  [
   ((121, 192, 90), "minecraft:grass_block"),
   ((134, 96, 67), "minecraft:dirt"),
   ((232, 228, 220), "minecraft:birch_planks"),
   ((143, 119, 72), "minecraft:oak_planks"),
   ((114, 84, 48), "minecraft:spruce_planks"),
   ((154, 110, 77), "minecraft:jungle_planks"),
   ((170, 91, 51), "minecraft:acacia_planks"),
   ((68, 47, 32), "minecraft:dark_oak_planks"),
   ((247, 233, 163), "minecraft:sandstone"),
   ((183, 96, 27), "minecraft:red_sandstone"),
   ((123, 123, 123), "minecraft:stone"),
   ((77, 77, 79), "minecraft:deepslate"),
   ((137, 98, 79), "minecraft:granite"),
   ((186, 187, 182), "minecraft:diorite"),
   ((131, 133, 133), "minecraft:andesite"),
   ((173, 173, 173), "minecraft:iron_block"),
   ((249, 236, 78), "minecraft:gold_block"),
   ((167, 110, 79), "minecraft:copper_block"),
   ((111, 121, 111), "minecraft:oxidized_copper"),
   ((32, 32, 32), "minecraft:coal_block"),
   ((20, 18, 29), "minecraft:obsidian"),
   ((229, 229, 229), "minecraft:quartz_block"),
   ((127, 204, 177), "minecraft:prismarine"),
   ((173, 201, 190), "minecraft:sea_lantern"),
   ((217, 210, 184), "minecraft:end_stone")
  ]

/-- The `glass` palette literal in `_map_colors_to_blocks`. -/
def glassPaletteRaw : List ((ℚ × ℚ × ℚ) × String) :=
  [
   ((255, 255, 255), "minecraft:white_stained_glass"),
   ((30, 30, 30), "minecraft:black_stained_glass"),
   ((161, 39, 34), "minecraft:red_stained_glass"),
   ((240, 118, 19), "minecraft:orange_stained_glass"),
   ((248, 198, 39), "minecraft:yellow_stained_glass"),
   ((112, 185, 25), "minecraft:lime_stained_glass"),
   ((20, 180, 133), "minecraft:cyan_stained_glass"),
   ((60, 68, 170), "minecraft:blue_stained_glass"),
   ((121, 42, 172), "minecraft:purple_stained_glass"),
   ((189, 68, 179), "minecraft:magenta_stained_glass"),
   ((58, 175, 217), "minecraft:light_blue_stained_glass"),
   ((237, 141, 172), "minecraft:pink_stained_glass"),
   ((142, 142, 142), "minecraft:light_gray_stained_glass"),
   ((62, 68, 71), "minecraft:gray_stained_glass"),
   ((114, 71, 40), "minecraft:brown_stained_glass"),
   ((84, 109, 27), "minecraft:green_stained_glass")
  ]

/-- The `vivid_hue_wheel` palette literal in `_map_colors_to_blocks`. -/
def vividHueWheel : List ((ℚ × ℚ × ℚ) × String) :=
  [
   ((142, 32, 32), "minecraft:red_concrete"),
   ((224, 97, 0), "minecraft:orange_concrete"),
   ((241, 175, 21), "minecraft:yellow_concrete"),
   ((94, 168, 24), "minecraft:lime_concrete"),
   ((83, 109, 27), "minecraft:green_concrete"),
   ((21, 119, 136), "minecraft:cyan_concrete"),
   ((36, 137, 199), "minecraft:light_blue_concrete"),
   ((44, 46, 143), "minecraft:blue_concrete"),
   ((121, 42, 172), "minecraft:purple_concrete"),
   ((169, 48, 159), "minecraft:magenta_concrete"),
   ((214, 101, 143), "minecraft:pink_concrete")
  ]

/-- `vivid_palette = tuple(concrete) + tuple(wool)`. -/
def vividPalette : List ((ℚ × ℚ × ℚ) × String) := concretePalette ++ woolPalette

/-- `muted_palette = tuple(terracotta) + tuple(natural) + (four concrete grays)`. -/
def mutedPalette : List ((ℚ × ℚ × ℚ) × String) :=
  terracottaPalette ++ naturalPalette ++
  [((207, 213, 214), "minecraft:white_concrete"),
   ((125, 125, 125), "minecraft:light_gray_concrete"),
   ((71, 79, 82), "minecraft:gray_concrete"),
   ((8, 10, 15), "minecraft:black_concrete")]

/-- `glass_palette = tuple(glass)`. -/
def glassPalette : List ((ℚ × ℚ × ℚ) × String) := glassPaletteRaw

/-- Palette anchor colors run through `_rgb_to_hsv_np`. -/
def paletteHsv (pal : List ((ℚ × ℚ × ℚ) × String)) : List (ℚ × ℚ × ℚ) :=
  pal.map (fun p => rgbToHsv p.1.1 p.1.2.1 p.1.2.2)

def paletteNames (pal : List ((ℚ × ℚ × ℚ) × String)) : List String :=
  pal.map Prod.snd

/-- The alpha value `_map_colors_to_blocks` classifies a voxel by: the own
alpha channel of the color when `USE_TEXTURE_ALPHA` is enabled, else a constant 255
(the mapper overwrites the whole alpha array with 255.0). -/
def effectiveAlpha (useTexAlpha : Bool) (c : Color) : ℚ :=
  if useTexAlpha then c.a else 255

/-- The three alpha classes of the palette mapper. -/
inductive AlphaClass where
  | air
  | glass
  | solid
  deriving DecidableEq, Repr

/-- Classification of one voxel by the three masks of `_map_colors_to_blocks`
(`mask_air`, `mask_glass`, `mask_opaque`). -/
def voxelClass (useTexAlpha : Bool) (c : Color) : AlphaClass :=
  let alpha := effectiveAlpha useTexAlpha c
  if alpha < ALPHA_CUTOUT then .air
  else if alpha < ALPHA_GLASS_MAX then .glass
  else .solid

/-- Block choice for one opaque voxel (the per-element computation inside the
`np.any(opaque_mask)` branch; the 4096-chunking in the source is pure batching
and does not change any per-voxel result). -/
def mapOpaque (forceVivid : Bool) (r g b : ℚ) : String :=
  let hsv := rgbToHsv r g b
  let sat := hsv.2.1
  if forceVivid then
    if sat >= 1 / 10 then
      (paletteNames vividHueWheel).getD (nearestHsvIdx hsv (paletteHsv vividHueWheel)) ""
    else
      (paletteNames mutedPalette).getD (nearestPaletteIdx r g b (mutedPalette.map Prod.fst)) ""
  else
    if sat >= VIVID_SAT_THRESHOLD then
      (paletteNames vividPalette).getD (nearestHsvIdx hsv (paletteHsv vividPalette)) ""
    else
      (paletteNames mutedPalette).getD (nearestPaletteIdx r g b (mutedPalette.map Prod.fst)) ""

/-- Block choice for one glass-class voxel. -/
def mapGlass (r g b : ℚ) : String :=
  (paletteNames glassPalette).getD (nearestHsvIdx (rgbToHsv r g b) (paletteHsv glassPalette)) ""

/-- One voxel of `_map_colors_to_blocks`: `""` denotes air (no block). -/
def mapOneColor (useTexAlpha forceVivid : Bool) (c : Color) : String :=
  match voxelClass useTexAlpha c with
  | .air => ""
  | .glass => mapGlass c.r c.g c.b
  | .solid => mapOpaque forceVivid c.r c.g c.b

/-- `_map_colors_to_blocks(colors_rgba, np, force_vivid=...)`, with the
`USE_TEXTURE_ALPHA` configuration made an explicit parameter. -/
def mapColorsToBlocks (useTexAlpha : Bool) (colors : List Color)
    (forceVivid : Bool) : List String :=
  colors.map (mapOneColor useTexAlpha forceVivid)

/-- Fraction of blocks mapped to air, as computed in `lambda_handler`:
`sum(1 for block in mapped_blocks if not block) / len(mapped_blocks)`, with
the `else` branch setting 1.0 for an empty mapping. -/
def airFraction (blocks : List String) : ℚ :=
  if blocks = [] then 1
  else (blocks.countP (fun b => b = "") : ℚ) / (blocks.length : ℚ)

/-- The alpha boost of the retry path:
`np.maximum(alpha, float(ALPHA_CUTOUT + 5))`. -/
def boostAlpha (c : Color) : Color :=
  { c with a := qmax c.a (ALPHA_CUTOUT + 5) }

/-- The air-ratio retry block of `lambda_handler` (lines 1067-1081): map once,
and when the air fraction exceeds 0.18 re-run the mapping exactly once on the
alpha-boosted colors (with `force_vivid` at its default `False`), keeping the
remap only when its air fraction is strictly lower.  Returns the kept mapping
and its air fraction. -/
def mapWithRetry (useTexAlpha : Bool) (colors : List Color)
    (forceVivid : Bool) : List String × ℚ :=
  let mapped := mapColorsToBlocks useTexAlpha colors forceVivid
  let ratio := airFraction mapped
  if ratio > 18 / 100 then
    let boosted := colors.map boostAlpha
    let remapped := mapColorsToBlocks useTexAlpha boosted false
    let ratio2 := airFraction remapped
    if ratio2 < ratio then (remapped, ratio2) else (mapped, ratio)
  else (mapped, ratio)


/-! ### Voxelizer grid bound (`lambda_handler` lines 991-1003) -/

/-- Fold an axis projection over a coordinate list (numpy `min`/`max` along
`axis=0`; the handler guarantees the list is nonempty). -/
def axisFold (op : ℤ → ℤ → ℤ) (f : ℤ × ℤ × ℤ → ℤ) : List (ℤ × ℤ × ℤ) → ℤ
  | [] => 0
  | c :: cs => cs.foldl (fun acc x => op acc (f x)) (f c)

/-- Padded grid dimensions: `max_v - min_v + 1` per axis after expanding the
bounding box of the rounded sample coordinates by the boundary padding. -/
def voxelGridDims (coords : List (ℤ × ℤ × ℤ)) (pad : ℤ) : ℤ × ℤ × ℤ :=
  ( axisFold zmax (fun c => c.1) coords - axisFold zmin (fun c => c.1) coords + 2 * pad + 1
  , axisFold zmax (fun c => c.2.1) coords - axisFold zmin (fun c => c.2.1) coords + 2 * pad + 1
  , axisFold zmax (fun c => c.2.2) coords - axisFold zmin (fun c => c.2.2) coords + 2 * pad + 1 )

/-- The hard cell-count ceiling `128_000_000` of the memory safety bound. -/
def GRID_CELL_LIMIT : ℤ := 128000000

/-- The voxel-grid stage of `lambda_handler`: compute padded dims, raise
`ValueError` when the total cell count exceeds the ceiling, and only otherwise
allocate the occupancy grid (the `.ok` payload stands for the allocated
`np.zeros(dims)` call, which is reached only past the check). -/
def allocateOccupancyGrid (coords : List (ℤ × ℤ × ℤ)) (pad : ℤ) :
    Except String (ℤ × ℤ × ℤ) :=
  let dims := voxelGridDims coords pad
  if dims.1 * dims.2.1 * dims.2.2 > GRID_CELL_LIMIT then
    .error "Voxel grid too large"
  else
    .ok dims

/-! ### Color transfer engine (`lambda_handler` lines 1040-1056, k > 1) -/

/-- Inverse-distance weights `1.0 / np.maximum(dist, 1e-3)` normalized by
`np.maximum(weights.sum(), 1e-12)` for one voxel row. -/
def transferWeights (dists : List ℚ) : List ℚ :=
  let raw := dists.map (fun d => 1 / qmax d (1 / 1000))
  let s := qmax raw.sum (1 / 10 ^ 12)
  raw.map (fun w => w / s)

/-- `np.clip(color, 0.0, 255.0)` on a row. -/
def clipColor (c : Color) : Color :=
  ⟨clipQ 0 255 c.r, clipQ 0 255 c.g, clipQ 0 255 c.b, clipQ 0 255 c.a⟩

/-- `np.sum(colors * weights[:, None], axis=0)` for one voxel. -/
def weightedColorSum (ws : List ℚ) (cols : List Color) : Color :=
  (List.zip ws cols).foldl
    (fun acc wc =>
      ⟨acc.r + wc.1 * wc.2.r, acc.g + wc.1 * wc.2.g,
       acc.b + wc.1 * wc.2.b, acc.a + wc.1 * wc.2.a⟩)
    ⟨0, 0, 0, 0⟩

/-- One voxel of the `k > 1` color-transfer branch: weighted sum of the k
nearest sample colors, clipped to `[0,255]`, alpha forced to 255 when
texture alpha is disabled. -/
def colorTransfer (useTexAlpha : Bool) (dists : List ℚ) (cols : List Color) :
    Color :=
  let c := clipColor (weightedColorSum (transferWeights dists) cols)
  if useTexAlpha then c else { c with a := 255 }

/-! ### Majority-vote smoothing (`_cluster_and_smooth_colors` lines 666-696) -/

/-- The fixed 6-neighbor scan order of the source. -/
def neighborOffsets : List (ℤ × ℤ × ℤ) :=
  [(1, 0, 0), (-1, 0, 0), (0, 1, 0), (0, -1, 0), (0, 0, 1), (0, 0, -1)]

/-- `coord_to_index`: a dict comprehension, so for duplicate coordinates the
last index wins. -/
def coordIndex (coords : List (ℤ × ℤ × ℤ)) (c : ℤ × ℤ × ℤ) : Option ℕ :=
  coords.enum.foldl (fun acc ip => if ip.2 = c then some ip.1 else acc) none

/-- Labels of the occupied 6-neighbors of `p`, in the fixed scan order. -/
def neighborLabels (coords : List (ℤ × ℤ × ℤ)) (labels : List ℕ)
    (p : ℤ × ℤ × ℤ) : List ℕ :=
  neighborOffsets.filterMap (fun d =>
    (coordIndex coords (p.1 + d.1, p.2.1 + d.2.1, p.2.2 + d.2.2)).map
      (fun j => labels.getD j 0))

/-- Distinct elements of a list in order of first occurrence (the insertion
order of the Python `counts` dict). -/
def dedupFirst (xs : List ℕ) : List ℕ :=
  xs.foldl (fun acc x => if x ∈ acc then acc else acc ++ [x]) []

/-- The best-label scan `for lab, cnt in counts.items(): if cnt > best_count`:
strict improvement over dict insertion order, starting from
`(labels[idx], 0)`.  Among the labels of maximal count this selects the one
whose first occurrence in the neighbor scan order is earliest. -/
def bestLabelCount (orig : ℕ) (nbr : List ℕ) : ℕ × ℕ :=
  (dedupFirst nbr).foldl
    (fun st l => if nbr.count l > st.2 then (l, nbr.count l) else st)
    (orig, 0)

/-- The smoothed label of voxel `i` (body of the per-voxel loop): keep the
original when no occupied neighbor exists or the best count misses the
threshold, else take the best label. -/
def smoothOne (coords : List (ℤ × ℤ × ℤ)) (labels : List ℕ) (threshold : ℕ)
    (i : ℕ) : ℕ :=
  let orig := labels.getD i 0
  let nbr := neighborLabels coords labels (coords.getD i (0, 0, 0))
  if nbr = [] then orig
  else
    let best := bestLabelCount orig nbr
    if best.2 ≥ threshold then best.1 else orig

/-- The whole smoothing pass: `smoothed` is computed from the unmodified
`labels` array, then replaces it. -/
def smoothLabels (coords : List (ℤ × ℤ × ℤ)) (labels : List ℕ)
    (threshold : ℕ) : List ℕ :=
  (List.range labels.length).map (smoothOne coords labels threshold)


/-! ### Face color resolver (`_sample_face_colors` lines 419-562)

The trimesh mesh object is modelled as an explicit data structure with
optional fields (texture image, uniform base-color factor, per-face color
table obtained from `visual.to_color()`, per-vertex colors); the broad
`try/except` guards of the source become decidable structural guards, a
failing guard yielding `none` exactly where the source falls through to the
next strategy. -/

/-- A decoded texture image (`image.convert("RGBA")` then `np.asarray`):
rows of RGBA pixels. -/
structure TexImage where
  height : ℕ
  width : ℕ
  pixels : List (List Color)
  deriving Repr

structure MaterialData where
  baseColorTexture : Option TexImage
  image : Option TexImage
  baseColorFactor : Option (List ℚ)
  deriving Repr

structure MeshVisual where
  uv : Option (List (ℚ × ℚ))
  material : Option MaterialData
  faceColorTable : Option (List Color)
  vertexColors : Option (List Color)
  deriving Repr

structure MeshData where
  vertices : List (ℚ × ℚ × ℚ)
  faces : List (ℕ × ℕ × ℕ)
  visual : MeshVisual
  deriving Repr

/-- Image resolution of the UV path: `material.baseColorTexture`, falling
back to `material.image` (the PIL unwrapping of the source is identity here
because `TexImage` is already decoded). -/
def materialImage (mat : MaterialData) : Option TexImage :=
  match mat.baseColorTexture with
  | some img => some img
  | none => mat.image

def neutralGray : Color := ⟨140, 140, 140, 255⟩

/-- `np.tile([140,140,140,255], (n,1))`. -/
def neutralTile (n : ℕ) : List Color := List.replicate n neutralGray

def sub3 (a b : ℚ × ℚ × ℚ) : ℚ × ℚ × ℚ := (a.1 - b.1, a.2.1 - b.2.1, a.2.2 - b.2.2)

def dot3 (a b : ℚ × ℚ × ℚ) : ℚ := a.1 * b.1 + a.2.1 * b.2.1 + a.2.2 * b.2.2

/-- Pixel index `np.clip((u * (w - 1)).astype(np.int64), 0, w - 1)`:
truncation of a nonnegative float is its floor. -/
def pixelIndex (u : ℚ) (w : ℕ) : ℕ :=
  (zmin ((w : ℤ) - 1) (zmax 0 (Int.floor (u * ((w : ℚ) - 1))))).toNat

/-- Barycentric texture lookup for one sample: the per-row computation of the
vectorized block in path 1 (dot-product barycentric formula, degenerate
denominator guard at 1e-12, clamp to the unit triangle, renormalization,
UV clamp to [0,1], vertical flip, nearest-pixel fetch). -/
def baryUvColor (img : TexImage) (a b c : ℚ × ℚ × ℚ)
    (uva uvb uvc : ℚ × ℚ) (p : ℚ × ℚ × ℚ) : Color :=
  let v0 := sub3 b a
  let v1 := sub3 c a
  let v2 := sub3 p a
  let d00 := dot3 v0 v0
  let d01 := dot3 v0 v1
  let d11 := dot3 v1 v1
  let d20 := dot3 v2 v0
  let d21 := dot3 v2 v1
  let denom := d00 * d11 - d01 * d01
  let vC := if qabs denom > 1 / 10 ^ 12 then (d11 * d20 - d01 * d21) / denom else 0
  let wC := if qabs denom > 1 / 10 ^ 12 then (d00 * d21 - d01 * d20) / denom else 0
  let uC := 1 - vC - wC
  let bu := clipQ 0 1 uC
  let bv := clipQ 0 1 vC
  let bw := clipQ 0 1 wC
  let s := qmax (bu + bv + bw) (1 / 10 ^ 12)
  let faceU := (bu * uva.1 + bv * uvb.1 + bw * uvc.1) / s
  let faceV := (bu * uva.2 + bv * uvb.2 + bw * uvc.2) / s
  let u := clipQ 0 1 faceU
  let v := clipQ 0 1 faceV
  let px := pixelIndex u img.width
  let py := pixelIndex (1 - v) img.height
  ((img.pixels.getD py []).getD px ⟨0, 0, 0, 255⟩)

/-- Alpha override `sampled[:, 3] = 255.0` applied when texture alpha is
disabled. -/
def forceOpaque (useTexAlpha : Bool) (cs : List Color) : List Color :=
  if useTexAlpha then cs else cs.map (fun c => { c with a := 255 })

/-- Path 1 (UV texture lookup).  `none` wherever the source falls through:
missing uv/material/image, shape guards
(`uv.shape[0] >= len(mesh.vertices)`, `len(sample_points) == len(face_indices)`),
or an out-of-range index (a numpy `IndexError` swallowed by the `except`). -/
def pathUvTexture (m : MeshData) (pts : List (ℚ × ℚ × ℚ)) (fi : List ℕ)
    (useTexAlpha : Bool) : Option (List Color) :=
  match m.visual.uv, m.visual.material with
  | some uv, some mat =>
    match materialImage mat with
    | some img =>
      if m.vertices.length ≤ uv.length ∧ pts.length = fi.length ∧
         1 ≤ img.width ∧ 1 ≤ img.height ∧
         fi.all (fun f => f < m.faces.length) ∧
         fi.all (fun f =>
           let fc := m.faces.getD f (0, 0, 0)
           fc.1 < m.vertices.length ∧ fc.2.1 < m.vertices.length ∧
           fc.2.2 < m.vertices.length ∧
           fc.1 < uv.length ∧ fc.2.1 < uv.length ∧ fc.2.2 < uv.length) then
        some (forceOpaque useTexAlpha
          ((List.zip pts fi).map (fun pf =>
            let fc := m.faces.getD pf.2 (0, 0, 0)
            baryUvColor img
              (m.vertices.getD fc.1 (0, 0, 0))
              (m.vertices.getD fc.2.1 (0, 0, 0))
              (m.vertices.getD fc.2.2 (0, 0, 0))
              (uv.getD fc.1 (0, 0))
              (uv.getD fc.2.1 (0, 0))
              (uv.getD fc.2.2 (0, 0))
              pf.1)))
      else none
    | none => none
  | _, _ => none

/-- Path 1b (uniform `baseColorFactor`): rescale `[0,1]` factors to `[0,255]`,
clip, force alpha, tile over all samples. -/
def pathBaseColorFactor (m : MeshData) (fi : List ℕ) (useTexAlpha : Bool) :
    Option (List Color) :=
  match m.visual.material with
  | none => none
  | some mat =>
    match mat.baseColorFactor with
    | none => none
    | some factor =>
      if 3 ≤ factor.length then
        let r0 := factor.getD 0 0
        let g0 := factor.getD 1 0
        let b0 := factor.getD 2 0
        let mx := qmax r0 (qmax g0 b0)
        let r := if mx ≤ 1 then r0 * 255 else r0
        let g := if mx ≤ 1 then g0 * 255 else g0
        let b := if mx ≤ 1 then b0 * 255 else b0
        let a0 := if 4 ≤ factor.length then factor.getD 3 0 else 1
        let a := if a0 ≤ 1 then a0 * 255 else a0
        some (forceOpaque useTexAlpha
          (List.replicate fi.length (clipColor ⟨r, g, b, a⟩)))
      else none

/-- Path 2 candidate (per-face color table from `visual.to_color()`), before
the variance acceptance test: requires the table to cover exactly the mesh
faces and every sampled face index to be in range. -/
def pathFaceTableCandidate (m : MeshData) (fi : List ℕ) (useTexAlpha : Bool) :
    Option (List Color) :=
  match m.visual.faceColorTable with
  | none => none
  | some table =>
    if table.length = m.faces.length ∧ fi.all (fun f => f < table.length) then
      some (forceOpaque useTexAlpha (fi.map (fun f => table.getD f ⟨0, 0, 0, 0⟩)))
    else none

/-- `((c1 + c2 + c3) / 3)` channel-wise: `vertex_colors[face_vertices].mean(axis=1)`. -/
def colorAvg3 (c1 c2 c3 : Color) : Color :=
  ⟨(c1.r + c2.r + c3.r) / 3, (c1.g + c2.g + c3.g) / 3,
   (c1.b + c2.b + c3.b) / 3, (c1.a + c2.a + c3.a) / 3⟩

/-- Path 3 candidate (per-vertex colors averaged over each sampled face),
before the variance acceptance test. -/
def pathVertexColorCandidate (m : MeshData) (fi : List ℕ)
    (useTexAlpha : Bool) : Option (List Color) :=
  match m.visual.vertexColors with
  | none => none
  | some vc =>
    if m.vertices.length ≤ vc.length ∧
       fi.all (fun f => f < m.faces.length) ∧
       fi.all (fun f =>
         let fc := m.faces.getD f (0, 0, 0)
         fc.1 < vc.length ∧ fc.2.1 < vc.length ∧ fc.2.2 < vc.length) then
      some (forceOpaque useTexAlpha (fi.map (fun f =>
        let fc := m.faces.getD f (0, 0, 0)
        colorAvg3 (vc.getD fc.1 ⟨0, 0, 0, 0⟩) (vc.getD fc.2.1 ⟨0, 0, 0, 0⟩)
          (vc.getD fc.2.2 ⟨0, 0, 0, 0⟩))))
    else none

/-- Population mean of one channel (`np.mean`, `ddof = 0`). -/
def chanMean (xs : List ℚ) : ℚ := xs.sum / (xs.length : ℚ)

/-- Population variance of one channel (the square of `np.std(…, axis=0)`). -/
def chanVar (xs : List ℚ) : ℚ :=
  (xs.map (fun x => (x - chanMean xs) ^ 2)).sum / (xs.length : ℚ)

/-- The variance acceptance test of paths 2 and 3:
`np.mean(np.std(result[:, :3], axis=0)) >= 1.0` — the mean over the three RGB
channels of the per-channel standard deviation of the given rows is at
least 1.  Stated over ℝ because `np.std` is a real square root. -/
def stdAccept (rows : List Color) : Prop :=
  1 ≤ (Real.sqrt ((chanVar (rows.map Color.r) : ℚ) : ℝ) +
       Real.sqrt ((chanVar (rows.map Color.g) : ℚ) : ℝ) +
       Real.sqrt ((chanVar (rows.map Color.b) : ℚ) : ℝ)) / 3

/-- Paths 3 and the final neutral fallback, as a relation on the output. -/
def vertexChain (m : MeshData) (fi : List ℕ) (useTexAlpha : Bool)
    (out : List Color) : Prop :=
  match pathVertexColorCandidate m fi useTexAlpha with
  | some cs =>
      (stdAccept cs ∧ out = cs) ∨ (¬ stdAccept cs ∧ out = neutralTile fi.length)
  | none => out = neutralTile fi.length

/-- Paths 2, 3 and the final fallback. -/
def faceChain (m : MeshData) (fi : List ℕ) (useTexAlpha : Bool)
    (out : List Color) : Prop :=
  match pathFaceTableCandidate m fi useTexAlpha with
  | some cs =>
      (stdAccept cs ∧ out = cs) ∨ (¬ stdAccept cs ∧ vertexChain m fi useTexAlpha out)
  | none => vertexChain m fi useTexAlpha out

/-- `_sample_face_colors`: the whole ordered fallback chain, as a relation
between the mesh/sample inputs and the returned color array (a relation
because the acceptance test of paths 2-3 is a real-valued comparison). -/
def sampleFaceColors (m : MeshData) (pts : List (ℚ × ℚ × ℚ)) (fi : List ℕ)
    (useTexAlpha : Bool) (out : List Color) : Prop :=
  if fi = [] then out = []
  else
    match pathUvTexture m pts fi useTexAlpha with
    | some cs => out = cs
    | none =>
      match pathBaseColorFactor m fi useTexAlpha with
      | some cs => out = cs
      | none => faceChain m fi useTexAlpha out

/-- `facePathAccepts`: path 2 fires (candidate exists and passes the variance
test). -/
def facePathAccepts (m : MeshData) (fi : List ℕ) (useTexAlpha : Bool) : Prop :=
  ∃ cs, pathFaceTableCandidate m fi useTexAlpha = some cs ∧ stdAccept cs


/-! ### Fallback PNG decoder (`_decode_png_rgba` lines 225-349)

Bytes are naturals in `[0,255]`; the external `zlib.decompress` is an
explicit function parameter (`none` modelling a `zlib.error`). -/

def pngSignature : List ℕ := [137, 80, 78, 71, 13, 10, 26, 10]

structure IhdrData where
  width : ℕ
  height : ℕ
  bitDepth : ℕ
  colorType : ℕ
  interlace : ℕ
  deriving DecidableEq, Repr

structure PngChunkState where
  ihdr : Option IhdrData
  plte : Option (List ℕ)
  trns : Option (List ℕ)
  idat : List ℕ
  deriving Repr

def emptyChunkState : PngChunkState := ⟨none, none, none, []⟩

/-- Big-endian 32-bit integer `struct.unpack(">I", ...)`. -/
def be32 (bs : List ℕ) : ℕ := (bs.take 4).foldl (fun acc b => acc * 256 + b) 0

def ihdrTag : List ℕ := [73, 72, 68, 82]
def plteTag : List ℕ := [80, 76, 84, 69]
def trnsTag : List ℕ := [116, 82, 78, 83]
def idatTag : List ℕ := [73, 68, 65, 84]
def iendTag : List ℕ := [73, 69, 78, 68]

/-- The chunk `while` loop of `_decode_png_rgba`, with an explicit fuel (each
iteration advances `pos` by at least 12, so `payload.length + 1` steps always
suffice).  Stops on exhausted input, a truncated chunk, or `IEND`; an `IHDR`
chunk whose data length is not 13 bytes makes `struct.unpack` raise. -/
def parsePngChunksGo : ℕ → List ℕ → ℕ → PngChunkState →
    Except String PngChunkState
  | 0, _, _, st => .ok st
  | fuel + 1, payload, pos, st =>
    if pos + 8 ≤ payload.length then
      let len := be32 ((payload.drop pos).take 4)
      let tag := (payload.drop (pos + 4)).take 4
      let dataStart := pos + 8
      let dataEnd := dataStart + len
      if dataEnd + 4 > payload.length then .ok st
      else
        let data := (payload.drop dataStart).take len
        let pos2 := dataEnd + 4
        if tag = ihdrTag then
          if len = 13 then
            parsePngChunksGo fuel payload pos2
              { st with ihdr := some (IhdrData.mk (be32 (data.take 4))
                  (be32 ((data.drop 4).take 4)) (data.getD 8 0)
                  (data.getD 9 0) (data.getD 12 0)) }
          else .error "struct.error: IHDR chunk is not 13 bytes"
        else if tag = plteTag then
          parsePngChunksGo fuel payload pos2 { st with plte := some data }
        else if tag = trnsTag then
          parsePngChunksGo fuel payload pos2 { st with trns := some data }
        else if tag = idatTag then
          parsePngChunksGo fuel payload pos2 { st with idat := st.idat ++ data }
        else if tag = iendTag then .ok st
        else parsePngChunksGo fuel payload pos2 st
    else .ok st

/-- The chunk loop, entered at the first byte after the 8-byte signature. -/
def parsePngChunks (payload : List ℕ) : Except String PngChunkState :=
  parsePngChunksGo (payload.length + 1) payload 8 emptyChunkState

/-- The Paeth predictor (`paeth(a, b, c)` in the source). -/
def paethPredictor (a b c : ℤ) : ℤ :=
  let p := a + b - c
  let pa := zabs (p - a)
  let pb := zabs (p - b)
  let pc := zabs (p - c)
  if pa ≤ pb ∧ pa ≤ pc then a
  else if pb ≤ pc then b
  else c

/-- Reverse one scanline filter byte-by-byte, left to right.  `acc` is the
already-reconstructed prefix of the row, `up` the reconstructed previous row
(empty for the first row, matching the zeros row of the source). -/
def unfilterRowGo (ft ch : ℕ) (up : List ℕ) : List ℕ → List ℕ → List ℕ
  | [], acc => acc
  | x :: rest, acc =>
    let i := acc.length
    let left : ℕ := if ch ≤ i then acc.getD (i - ch) 0 else 0
    let upv : ℕ := up.getD i 0
    let upLeft : ℕ := if ch ≤ i then up.getD (i - ch) 0 else 0
    let value : ℕ :=
      if ft = 1 then (x + left) % 256
      else if ft = 2 then (x + upv) % 256
      else if ft = 3 then (x + (left + upv) / 2) % 256
      else if ft = 4 then
        (((x : ℤ) + paethPredictor (left : ℤ) (upv : ℤ) (upLeft : ℤ)) % 256).toNat
      else x
    unfilterRowGo ft ch up rest (acc ++ [value])

def unfilterRow (ft ch : ℕ) (up row : List ℕ) : List ℕ :=
  unfilterRowGo ft ch up row []

/-- The row loop: each raw scanline is one filter-type byte followed by
`stride` data bytes; an unknown filter type raises. -/
def unfilterRows (ch stride : ℕ) : ℕ → List ℕ → List ℕ →
    Except String (List (List ℕ))
  | 0, _, _ => .ok []
  | h + 1, raw, prev =>
    let ft := raw.headD 0
    if 5 ≤ ft then .error "Unsupported PNG filter"
    else
      let cur := unfilterRow ft ch prev ((raw.drop 1).take stride)
      match unfilterRows ch stride h (raw.drop (1 + stride)) cur with
      | .ok rest => .ok (cur :: rest)
      | .error e => .error e

/-- Split a flat byte row into pixels of `ch` bytes each. -/
def groupBytesGo (ch : ℕ) : ℕ → List ℕ → List (List ℕ)
  | 0, _ => []
  | _, [] => []
  | fuel + 1, xs => xs.take ch :: groupBytesGo ch fuel (xs.drop ch)

def groupBytes (ch : ℕ) (xs : List ℕ) : List (List ℕ) :=
  groupBytesGo ch (xs.length + 1) xs

/-- Per-row pixel assembly for the four supported color types. -/
def assembleRow (colorType : ℕ) (plte : List (List ℕ)) (trns : Option (List ℕ))
    (row : List ℕ) : List Color :=
  if colorType = 6 then
    (groupBytes 4 row).map (fun px =>
      ⟨(px.getD 0 0 : ℚ), (px.getD 1 0 : ℚ), (px.getD 2 0 : ℚ), (px.getD 3 0 : ℚ)⟩)
  else if colorType = 2 then
    (groupBytes 3 row).map (fun px =>
      ⟨(px.getD 0 0 : ℚ), (px.getD 1 0 : ℚ), (px.getD 2 0 : ℚ), 255⟩)
  else if colorType = 0 then
    row.map (fun v => ⟨(v : ℚ), (v : ℚ), (v : ℚ), 255⟩)
  else
    row.map (fun idx =>
      let entry := plte.getD idx []
      let alpha : ℕ :=
        match trns with
        | some t => if idx < t.length then t.getD idx 0 else 255
        | none => 255
      ⟨(entry.getD 0 0 : ℚ), (entry.getD 1 0 : ℚ), (entry.getD 2 0 : ℚ), (alpha : ℚ)⟩)

/-- The body of `_decode_png_rgba` after header validation: inflate, length
check, per-scanline unfiltering, pixel assembly (indexed images additionally
need a well-formed palette: `reshape(-1, 3)` and `palette_np[idx]` raise on a
ragged palette or an out-of-range index). -/
def decodePngBody (inflate : List ℕ → Option (List ℕ)) (st : PngChunkState)
    (h : IhdrData) (channels : ℕ) : Except String (List (List Color)) :=
  match inflate st.idat with
  | none => .error "zlib.error: invalid deflate stream"
  | some raw =>
    let stride := h.width * channels
    if raw.length < h.height * (stride + 1) then
      .error "PNG decode failed: truncated image data"
    else
      match unfilterRows channels stride h.height raw [] with
      | .error e => .error e
      | .ok rows =>
        if h.colorType = 3 then
          let plteBytes := (st.plte.getD [])
          if plteBytes.length % 3 = 0 ∧
             (st.trns.getD []).length ≤ plteBytes.length / 3 ∧
             rows.all (fun row => row.all (fun idx => idx < plteBytes.length / 3)) then
            .ok (rows.map (assembleRow h.colorType (groupBytes 3 plteBytes) st.trns))
          else .error "IndexError: palette lookup out of range"
        else
          .ok (rows.map (assembleRow h.colorType [] none))

/-- `_decode_png_rgba(payload, np)`: signature check, chunk parse, header
validation in source order (missing IHDR, interlace, bit depth, color type,
missing PLTE), then the decode body.  `.error` is a raised exception; a pixel
buffer exists only in the `.ok` case. -/
def decodePngRgba (inflate : List ℕ → Option (List ℕ)) (payload : List ℕ) :
    Except String (List (List Color)) :=
  if pngSignature.isPrefixOf payload then
    match parsePngChunks payload with
    | .error e => .error e
    | .ok st =>
      match st.ihdr with
      | none => .error "PNG missing IHDR"
      | some h =>
        if h.interlace ≠ 0 then
          .error "Interlaced PNG is not supported in fallback decoder"
        else if h.bitDepth ≠ 8 then
          .error "Only 8-bit PNG is supported in fallback decoder"
        else if h.colorType = 6 then decodePngBody inflate st h 4
        else if h.colorType = 2 then decodePngBody inflate st h 3
        else if h.colorType = 0 then decodePngBody inflate st h 1
        else if h.colorType = 3 then
          match st.plte with
          | none => .error "Indexed PNG missing PLTE"
          | some _ => decodePngBody inflate st h 1
        else .error "Unsupported PNG color type"
  else .error "Only PNG source image fallback is supported"


/-- A 17-face mesh whose per-face color table has a single bright outlier
row: across all faces the color spread is tiny (std < 1), but two samples that
hit the outlier face and a dark face have a large spread. -/
def outlierFaceMesh : MeshData :=
  ⟨[], List.replicate 17 (0, 0, 0),
    ⟨none, none, some (⟨4, 4, 4, 255⟩ :: List.replicate 16 ⟨0, 0, 0, 255⟩), none⟩⟩

/-- A 2-face mesh with a constant per-face color table (zero variance). -/
def uniformFaceMesh : MeshData :=
  ⟨[], [(0, 0, 0), (0, 0, 0)],
    ⟨none, none, some [⟨5, 5, 5, 255⟩, ⟨5, 5, 5, 255⟩], none⟩⟩

/-- A mesh carrying no color information at all: every resolution strategy
fails structurally. -/
def bareMesh : MeshData :=
  ⟨[(0, 0, 0)], [(0, 0, 0)], ⟨none, none, none, none⟩⟩

/-- `mask_air = alpha < float(ALPHA_CUTOUT)`. -/
def maskAir (a : ℚ) : Prop := a < ALPHA_CUTOUT

/-- `mask_glass = (alpha >= cutout) & (alpha < glass_max)`. -/
def maskGlass (a : ℚ) : Prop := ALPHA_CUTOUT ≤ a ∧ a < ALPHA_GLASS_MAX

/-- `mask_opaque = alpha >= float(ALPHA_GLASS_MAX)`. -/
def maskOpaque (a : ℚ) : Prop := ALPHA_GLASS_MAX ≤ a

/-! ### Helper lemmas -/

/-- The running index of the fold in `argminQ` is the number of processed elements,
and the recorded best index stays below it (or is the initial 0). -/
lemma argminQ_fold_inv (l : List ℚ) :
    ∀ st : ℕ × ℕ × ℚ, (st.1 = 0 ∨ st.1 < st.2.1) →
      ((l.foldl
          (fun st x =>
            if x < st.2.2 then (st.2.1, st.2.1 + 1, x)
            else (st.1, st.2.1 + 1, st.2.2)) st).1 = 0 ∨
        (l.foldl
          (fun st x =>
            if x < st.2.2 then (st.2.1, st.2.1 + 1, x)
            else (st.1, st.2.1 + 1, st.2.2)) st).1 <
        (l.foldl
          (fun st x =>
            if x < st.2.2 then (st.2.1, st.2.1 + 1, x)
            else (st.1, st.2.1 + 1, st.2.2)) st).2.1) ∧
      (l.foldl
        (fun st x =>
          if x < st.2.2 then (st.2.1, st.2.1 + 1, x)
          else (st.1, st.2.1 + 1, st.2.2)) st).2.1 = st.2.1 + l.length := by
  induction l with
  | nil => intro st h; exact ⟨h, by simp⟩
  | cons x l ih =>
    intro st h
    simp only [List.foldl_cons]
    have hstep : ((if x < st.2.2 then (st.2.1, st.2.1 + 1, x)
        else (st.1, st.2.1 + 1, st.2.2)) : ℕ × ℕ × ℚ).1 = 0 ∨
        ((if x < st.2.2 then (st.2.1, st.2.1 + 1, x)
        else (st.1, st.2.1 + 1, st.2.2)) : ℕ × ℕ × ℚ).1 <
        ((if x < st.2.2 then (st.2.1, st.2.1 + 1, x)
        else (st.1, st.2.1 + 1, st.2.2)) : ℕ × ℕ × ℚ).2.1 := by
      split_ifs with hx
      · right; simp
      · rcases h with h | h
        · left; exact h
        · right; simpa using Nat.lt_succ_of_lt h
    obtain ⟨h1, h2⟩ := ih _ hstep
    refine ⟨h1, ?_⟩
    rw [h2]
    split_ifs <;> simp <;> omega

/-- `np.argmin` returns an index inside the array. -/
lemma argminQ_lt_length (xs : List ℚ) (h : xs ≠ []) : argminQ xs < xs.length := by
  obtain ⟨h1, h2⟩ := argminQ_fold_inv xs (0, 0, xs.headD 0) (Or.inl rfl)
  have hlen : 0 < xs.length := List.length_pos.mpr h
  unfold argminQ
  rcases h1 with h1 | h1
  · rw [h1]; exact hlen
  · rw [h2] at h1; simpa using h1

lemma nearestHsvIdx_lt (hsv : ℚ × ℚ × ℚ) (pal : List (ℚ × ℚ × ℚ)) (h : pal ≠ []) :
    nearestHsvIdx hsv pal < pal.length := by
  have := argminQ_lt_length (pal.map (fun p =>
    (qmin (qabs (hsv.1 - p.1)) (1 - qabs (hsv.1 - p.1)) * (17 / 5)) ^ 2 +
    ((hsv.2.1 - p.2.1) * (6 / 5)) ^ 2 + ((hsv.2.2 - p.2.2) * (7 / 10)) ^ 2))
    (by simpa using h)
  simpa [nearestHsvIdx] using this

lemma nearestPaletteIdx_lt (r g b : ℚ) (pal : List (ℚ × ℚ × ℚ)) (h : pal ≠ []) :
    nearestPaletteIdx r g b pal < pal.length := by
  have := argminQ_lt_length (pal.map (fun p =>
    (r - p.1) * (r - p.1) * 2 + (g - p.2.1) * (g - p.2.1) * 4 +
    (b - p.2.2) * (b - p.2.2) * 3)) (by simpa using h)
  simpa [nearestPaletteIdx] using this

lemma getD_mem_of_lt (l : List String) (i : ℕ) (h : i < l.length) :
    l.getD i "" ∈ l := by
  rw [List.getD_eq_get l "" h]
  exact List.get_mem l i h

/-- A glass-class voxel always maps into the glass palette. -/
lemma mapGlass_mem (r g b : ℚ) : mapGlass r g b ∈ paletteNames glassPalette := by
  have hlen : (paletteHsv glassPalette).length = (paletteNames glassPalette).length := by
    simp [paletteHsv, paletteNames]
  have h := nearestHsvIdx_lt (rgbToHsv r g b) (paletteHsv glassPalette) (by decide)
  rw [hlen] at h
  exact getD_mem_of_lt _ _ h

/-- An opaque-class voxel always maps into the vivid, hue-wheel or muted
palette. -/
lemma mapOpaque_mem (fv : Bool) (r g b : ℚ) :
    mapOpaque fv r g b ∈
      paletteNames vividPalette ++ paletteNames vividHueWheel ++
        paletteNames mutedPalette := by
  have hwheel : (paletteNames vividHueWheel).getD
      (nearestHsvIdx (rgbToHsv r g b) (paletteHsv vividHueWheel)) "" ∈
      paletteNames vividHueWheel := by
    have hlen : (paletteHsv vividHueWheel).length = (paletteNames vividHueWheel).length := by
      simp [paletteHsv, paletteNames]
    have h := nearestHsvIdx_lt (rgbToHsv r g b) (paletteHsv vividHueWheel) (by decide)
    rw [hlen] at h
    exact getD_mem_of_lt _ _ h
  have hmuted : (paletteNames mutedPalette).getD
      (nearestPaletteIdx r g b (mutedPalette.map Prod.fst)) "" ∈
      paletteNames mutedPalette := by
    have hlen : (mutedPalette.map Prod.fst).length = (paletteNames mutedPalette).length := by
      simp [paletteNames]
    have h := nearestPaletteIdx_lt r g b (mutedPalette.map Prod.fst) (by decide)
    rw [hlen] at h
    exact getD_mem_of_lt _ _ h
  have hvivid : (paletteNames vividPalette).getD
      (nearestHsvIdx (rgbToHsv r g b) (paletteHsv vividPalette)) "" ∈
      paletteNames vividPalette := by
    have hlen : (paletteHsv vividPalette).length = (paletteNames vividPalette).length := by
      simp [paletteHsv, paletteNames]
    have h := nearestHsvIdx_lt (rgbToHsv r g b) (paletteHsv vividPalette) (by decide)
    rw [hlen] at h
    exact getD_mem_of_lt _ _ h
  unfold mapOpaque
  dsimp only
  split_ifs
  · exact List.mem_append.mpr (Or.inl (List.mem_append.mpr (Or.inr hwheel)))
  · exact List.mem_append.mpr (Or.inr hmuted)
  · exact List.mem_append.mpr (Or.inl (List.mem_append.mpr (Or.inl hvivid)))
  · exact List.mem_append.mpr (Or.inr hmuted)

lemma glass_names_no_air : "" ∉ paletteNames glassPalette := by decide

lemma solid_names_no_air :
    "" ∉ paletteNames vividPalette ++ paletteNames vividHueWheel ++
      paletteNames mutedPalette := by decide

/-- The mapper emits air (the empty block) exactly for air-class voxels. -/
lemma mapOneColor_air_iff (uta fv : Bool) (c : Color) :
    mapOneColor uta fv c = "" ↔ voxelClass uta c = AlphaClass.air := by
  unfold mapOneColor
  cases hv : voxelClass uta c with
  | air => simp
  | glass =>
    simp only [hv]
    constructor
    · intro h
      exact absurd (h ▸ mapGlass_mem c.r c.g c.b) glass_names_no_air
    · intro h; cases h
  | solid =>
    simp only [hv]
    constructor
    · intro h
      exact absurd (h ▸ mapOpaque_mem fv c.r c.g c.b) solid_names_no_air
    · intro h; cases h


/-! ### Claim theorems -/

/-- C1: for every input color array the palette mapper puts each voxel in
exactly one of the three alpha classes air / glass / opaque, the class being
determined by the alpha value the mapper classifies by (the own alpha of the voxel
when texture alpha is enabled, the overridden 255 otherwise): air iff
`alpha < ALPHA_CUTOUT`, glass iff `ALPHA_CUTOUT ≤ alpha < ALPHA_GLASS_MAX`,
opaque iff `alpha ≥ ALPHA_GLASS_MAX`; the emitted block is empty exactly for
air and draws from the glass / opaque palettes otherwise. -/
theorem c1_alpha_partition (uta fv : Bool) (colors : List Color) (c : Color)
    (hc : c ∈ colors) :
    (maskAir (effectiveAlpha uta c) ∨ maskGlass (effectiveAlpha uta c) ∨
      maskOpaque (effectiveAlpha uta c)) ∧
    ¬ (maskAir (effectiveAlpha uta c) ∧ maskGlass (effectiveAlpha uta c)) ∧
    ¬ (maskAir (effectiveAlpha uta c) ∧ maskOpaque (effectiveAlpha uta c)) ∧
    ¬ (maskGlass (effectiveAlpha uta c) ∧ maskOpaque (effectiveAlpha uta c)) ∧
    (voxelClass uta c = AlphaClass.air ↔ maskAir (effectiveAlpha uta c)) ∧
    (voxelClass uta c = AlphaClass.glass ↔ maskGlass (effectiveAlpha uta c)) ∧
    (voxelClass uta c = AlphaClass.solid ↔ maskOpaque (effectiveAlpha uta c)) ∧
    (mapColorsToBlocks uta colors fv = colors.map (mapOneColor uta fv)) ∧
    (mapOneColor uta fv c = "" ↔ voxelClass uta c = AlphaClass.air) ∧
    (voxelClass uta c = AlphaClass.glass →
      mapOneColor uta fv c ∈ paletteNames glassPalette) ∧
    (voxelClass uta c = AlphaClass.solid →
      mapOneColor uta fv c ∈
        paletteNames vividPalette ++ paletteNames vividHueWheel ++
          paletteNames mutedPalette) := by
  set a := effectiveAlpha uta c with ha
  have hcut : (ALPHA_CUTOUT : ℚ) = 20 := rfl
  have hgm : (ALPHA_GLASS_MAX : ℚ) = 210 := rfl
  have hclass : voxelClass uta c =
      (if a < ALPHA_CUTOUT then AlphaClass.air
       else if a < ALPHA_GLASS_MAX then AlphaClass.glass
       else AlphaClass.solid) := rfl
  refine ⟨?_, ?_, ?_, ?_, ?_, ?_, ?_, rfl, mapOneColor_air_iff uta fv c, ?_, ?_⟩
  · by_cases h1 : a < ALPHA_CUTOUT
    · exact Or.inl h1
    · by_cases h2 : a < ALPHA_GLASS_MAX
      · exact Or.inr (Or.inl ⟨le_of_not_lt h1, h2⟩)
      · exact Or.inr (Or.inr (le_of_not_lt h2))
  · rintro ⟨h1, h2, _⟩; exact absurd h1 (not_lt.mpr h2)
  · rintro ⟨h1, h2⟩
    simp only [maskAir] at h1
    simp only [maskOpaque] at h2
    rw [hcut] at h1; rw [hgm] at h2
    linarith
  · rintro ⟨⟨_, h1⟩, h2⟩; exact absurd h1 (not_lt.mpr h2)
  · rw [hclass]
    split_ifs with h1 h2
    · simpa [maskAir] using h1
    · simp only [maskAir]
      constructor
      · intro h; cases h
      · intro h; exact absurd h h1
    · simp only [maskAir]
      constructor
      · intro h; cases h
      · intro h; exact absurd h h1
  · rw [hclass]
    split_ifs with h1 h2
    · simp only [maskGlass]
      constructor
      · intro h; cases h
      · rintro ⟨h2, _⟩; exact absurd h1 (not_lt.mpr h2)
    · simpa [maskGlass] using ⟨le_of_not_lt h1, h2⟩
    · simp only [maskGlass]
      constructor
      · intro h; cases h
      · rintro ⟨_, h3⟩; exact absurd h3 h2
  · rw [hclass]
    split_ifs with h1 h2
    · simp only [maskOpaque]
      constructor
      · intro h; cases h
      · intro h
        simp only [maskOpaque] at h
        rw [hcut] at h1; rw [hgm] at h
        linarith
    · simp only [maskOpaque]
      constructor
      · intro h; cases h
      · intro h; exact absurd h (not_le.mpr h2)
    · simpa [maskOpaque] using le_of_not_lt h2
  · intro h
    have : mapOneColor uta fv c = mapGlass c.r c.g c.b := by
      unfold mapOneColor; rw [h]
    rw [this]
    exact mapGlass_mem c.r c.g c.b
  · intro h
    have : mapOneColor uta fv c = mapOpaque fv c.r c.g c.b := by
      unfold mapOneColor; rw [h]
    rw [this]
    exact mapOpaque_mem fv c.r c.g c.b

/-- C1 witness: the partition and classification at the concrete glass-class
voxel `(10, 20, 30, 100)` with texture alpha enabled. -/
theorem c1_alpha_partition_witness :
    voxelClass true ⟨10, 20, 30, 100⟩ = AlphaClass.glass ∧
    mapOneColor true false ⟨10, 20, 30, 100⟩ ∈ paletteNames glassPalette := by
  have h := c1_alpha_partition true false [⟨10, 20, 30, 100⟩] ⟨10, 20, 30, 100⟩
    (List.mem_singleton.mpr rfl)
  have hglass : voxelClass true (⟨10, 20, 30, 100⟩ : Color) = AlphaClass.glass :=
    h.2.2.2.2.2.1.mpr (by constructor <;> norm_num [effectiveAlpha, ALPHA_CUTOUT, ALPHA_GLASS_MAX])
  exact ⟨hglass, h.2.2.2.2.2.2.2.2.2.1 hglass⟩

/-- C2: whenever the padded grid implied by the rounded sample coordinates has
a total cell count above the hard ceiling of 128,000,000 cells, the voxelizer
stage raises the resource error before the occupancy-grid allocation (the
`.ok` payload standing for the allocation) is ever reached. -/
theorem c2_grid_safety (coords : List (ℤ × ℤ × ℤ)) (pad : ℤ)
    (h : GRID_CELL_LIMIT <
      (voxelGridDims coords pad).1 * (voxelGridDims coords pad).2.1 *
        (voxelGridDims coords pad).2.2) :
    allocateOccupancyGrid coords pad = .error "Voxel grid too large" := by
  unfold allocateOccupancyGrid
  simp only [if_pos h]

/-- C2 witness: two rounded sample coordinates whose padded bounding box is
exactly the `(5000, 5000, 5000)` grid of the claim (125 × 10⁹ cells) are
rejected with the resource error. -/
theorem c2_grid_safety_witness :
    voxelGridDims [(0, 0, 0), (4997, 4997, 4997)] 1 = (5000, 5000, 5000) ∧
    allocateOccupancyGrid [(0, 0, 0), (4997, 4997, 4997)] 1 =
      .error "Voxel grid too large" :=
  ⟨by decide, c2_grid_safety [(0, 0, 0), (4997, 4997, 4997)] 1 (by decide)⟩

/-- C7: the palette mapper is deterministic — two runs of
`_map_colors_to_blocks` on equal voxel-color arrays with the same mode flags
(and no adaptive retry) produce identical block assignments.  In the
embedding the mapper reads no mutable or random state, so the two runs are
the same pure function application. -/
theorem c7_mapper_deterministic (uta fv : Bool) (colors colors2 : List Color) :
    colors = colors2 →
      mapColorsToBlocks uta colors fv = mapColorsToBlocks uta colors2 fv := by
  intro h
  rw [h]

/-- C7 witness: the two runs coincide on a concrete one-voxel array. -/
theorem c7_mapper_deterministic_witness :
    mapColorsToBlocks true [⟨1, 2, 3, 255⟩] false =
      mapColorsToBlocks true [⟨1, 2, 3, 255⟩] false :=
  c7_mapper_deterministic true false [⟨1, 2, 3, 255⟩] [⟨1, 2, 3, 255⟩] rfl


/-- C3: when the first palette mapping has an air fraction above the 0.18
ceiling, the mapping stage alone is re-run exactly once, on colors whose
alpha is raised to at least `ALPHA_CUTOUT + 5` (just above the cutout), and
the mapping kept is the first one unless the air fraction of the remap is strictly
lower; hence the final air fraction is the minimum of the two and never
exceeds that of the first mapping. -/
theorem c3_air_retry (uta fv : Bool) (colors : List Color)
    (hne : colors ≠ [])
    (hr : 18 / 100 < airFraction (mapColorsToBlocks uta colors fv)) :
    ((mapWithRetry uta colors fv).1 =
        (if airFraction (mapColorsToBlocks uta (colors.map boostAlpha) false) <
            airFraction (mapColorsToBlocks uta colors fv) then
          mapColorsToBlocks uta (colors.map boostAlpha) false
        else mapColorsToBlocks uta colors fv)) ∧
    (mapWithRetry uta colors fv).2 =
      min (airFraction (mapColorsToBlocks uta colors fv))
        (airFraction (mapColorsToBlocks uta (colors.map boostAlpha) false)) ∧
    (mapWithRetry uta colors fv).2 ≤
      airFraction (mapColorsToBlocks uta colors fv) ∧
    ∀ c ∈ colors.map boostAlpha, ALPHA_CUTOUT + 5 ≤ c.a := by
  have hboost : ∀ c ∈ colors.map boostAlpha, ALPHA_CUTOUT + 5 ≤ c.a := by
    intro c hcm
    obtain ⟨c0, _, rfl⟩ := List.mem_map.mp hcm
    show ALPHA_CUTOUT + 5 ≤ qmax c0.a (ALPHA_CUTOUT + 5)
    unfold qmax
    split_ifs with h
    · exact le_refl _
    · exact le_of_not_le h
  have hdef : mapWithRetry uta colors fv =
      (if airFraction (mapColorsToBlocks uta (colors.map boostAlpha) false) <
          airFraction (mapColorsToBlocks uta colors fv) then
        (mapColorsToBlocks uta (colors.map boostAlpha) false,
          airFraction (mapColorsToBlocks uta (colors.map boostAlpha) false))
      else (mapColorsToBlocks uta colors fv,
          airFraction (mapColorsToBlocks uta colors fv))) := by
    unfold mapWithRetry
    rw [if_pos hr]
  constructor
  · rw [hdef]
    split_ifs <;> rfl
  constructor
  · rw [hdef]
    split_ifs with h
    · simp [min_eq_right (le_of_lt h)]
    · simp [min_eq_left (le_of_not_lt h)]
  constructor
  · rw [hdef]
    split_ifs with h
    · exact le_of_lt h
    · exact le_refl _
  · exact hboost

/-- C3 witness: on the one-voxel fully transparent array with texture alpha
enabled the first mapping is all air (fraction 1 > 0.18), and after the
bounded single retry the kept air fraction does not exceed it. -/
theorem c3_air_retry_witness :
    (mapWithRetry true [⟨0, 0, 0, 0⟩] false).2 ≤
      airFraction (mapColorsToBlocks true [⟨0, 0, 0, 0⟩] false) :=
  (c3_air_retry true false [⟨0, 0, 0, 0⟩] (by simp)
    (by with_unfolding_all decide)).2.2.1

/-- C10: with texture-alpha use disabled (the default configuration), the
palette mapper classifies by the constant alpha 255, so every voxel is in the
opaque class, no voxel maps to air or glass, the air fraction of a nonempty
mapping is 0, and the air-ratio retry of the handler never fires. -/
theorem c10_texture_alpha_disabled (fv : Bool) (colors : List Color)
    (hne : colors ≠ []) :
    (∀ c ∈ colors,
      effectiveAlpha USE_TEXTURE_ALPHA c = 255 ∧
      voxelClass USE_TEXTURE_ALPHA c = AlphaClass.solid ∧
      mapOneColor USE_TEXTURE_ALPHA fv c ≠ "" ∧
      mapOneColor USE_TEXTURE_ALPHA fv c ∉ paletteNames glassPalette) ∧
    airFraction (mapColorsToBlocks USE_TEXTURE_ALPHA colors fv) = 0 ∧
    mapWithRetry USE_TEXTURE_ALPHA colors fv =
      (mapColorsToBlocks USE_TEXTURE_ALPHA colors fv, 0) := by
  have huta : USE_TEXTURE_ALPHA = false := rfl
  have halpha : ∀ c : Color, effectiveAlpha USE_TEXTURE_ALPHA c = 255 := by
    intro c; rw [huta]; rfl
  have hclass : ∀ c : Color, voxelClass USE_TEXTURE_ALPHA c = AlphaClass.solid := by
    intro c
    unfold voxelClass
    rw [halpha c]
    norm_num [ALPHA_CUTOUT, ALPHA_GLASS_MAX]
  have hne_air : ∀ c : Color, mapOneColor USE_TEXTURE_ALPHA fv c ≠ "" := by
    intro c
    rw [Ne, mapOneColor_air_iff, hclass c]
    intro h; cases h
  have hcount : (mapColorsToBlocks USE_TEXTURE_ALPHA colors fv).countP
      (fun b => b = "") = 0 := by
    rw [List.countP_eq_zero]
    intro b hb
    obtain ⟨c, _, rfl⟩ := List.mem_map.mp hb
    simpa using hne_air c
  have hfrac : airFraction (mapColorsToBlocks USE_TEXTURE_ALPHA colors fv) = 0 := by
    unfold airFraction
    rw [if_neg (by simpa [mapColorsToBlocks] using hne), hcount]
    simp
  refine ⟨?_, hfrac, ?_⟩
  · intro c _
    refine ⟨halpha c, hclass c, hne_air c, ?_⟩
    have : mapOneColor USE_TEXTURE_ALPHA fv c = mapOpaque fv c.r c.g c.b := by
      unfold mapOneColor
      rw [hclass c]
    rw [this]
    intro hmem
    have hdisj : ∀ s ∈ paletteNames glassPalette,
        s ∉ paletteNames vividPalette ++ paletteNames vividHueWheel ++
          paletteNames mutedPalette := by decide
    exact hdisj _ hmem (mapOpaque_mem fv c.r c.g c.b)
  · unfold mapWithRetry
    dsimp only
    rw [hfrac]
    norm_num

/-- C10 witness: the fully transparent voxel `(1, 2, 3, 0)` is still mapped
opaque under the default configuration, with air fraction 0 and no retry. -/
theorem c10_texture_alpha_disabled_witness :
    airFraction (mapColorsToBlocks USE_TEXTURE_ALPHA [⟨1, 2, 3, 0⟩] false) = 0 ∧
    mapWithRetry USE_TEXTURE_ALPHA [⟨1, 2, 3, 0⟩] false =
      (mapColorsToBlocks USE_TEXTURE_ALPHA [⟨1, 2, 3, 0⟩] false, 0) :=
  ⟨(c10_texture_alpha_disabled false [⟨1, 2, 3, 0⟩] (by simp)).2.1,
   (c10_texture_alpha_disabled false [⟨1, 2, 3, 0⟩] (by simp)).2.2⟩


/-! ### Smoothing fold lemmas (for C5) -/

lemma dedupFirst_aux (xs : List ℕ) :
    ∀ (acc : List ℕ) (a : ℕ),
      (a ∈ xs.foldl (fun acc x => if x ∈ acc then acc else acc ++ [x]) acc ↔
        a ∈ acc ∨ a ∈ xs) := by
  induction xs with
  | nil => intro acc a; simp
  | cons x l ih =>
    intro acc a
    simp only [List.foldl_cons]
    by_cases hx : x ∈ acc
    · rw [if_pos hx, ih]
      constructor
      · rintro (h | h)
        · exact Or.inl h
        · exact Or.inr (List.mem_cons_of_mem x h)
      · rintro (h | h)
        · exact Or.inl h
        · rcases List.mem_cons.mp h with rfl | h
          · exact Or.inl hx
          · exact Or.inr h
    · rw [if_neg hx, ih]
      simp only [List.mem_append, List.mem_singleton, List.mem_cons]
      tauto

/-- `dedupFirst` has the same members as its input. -/
lemma dedupFirst_mem (xs : List ℕ) (a : ℕ) : a ∈ dedupFirst xs ↔ a ∈ xs := by
  unfold dedupFirst
  rw [dedupFirst_aux xs [] a]
  simp

lemma bestFold_snd_mono (nbr : List ℕ) :
    ∀ (ds : List ℕ) (st : ℕ × ℕ),
      st.2 ≤ (ds.foldl
        (fun st l => if nbr.count l > st.2 then (l, nbr.count l) else st) st).2 := by
  intro ds
  induction ds with
  | nil => intro st; exact le_refl _
  | cons d ds ih =>
    intro st
    simp only [List.foldl_cons]
    refine le_trans ?_ (ih _)
    split_ifs with h
    · exact le_of_lt h
    · exact le_refl _

lemma bestFold_ge_count (nbr : List ℕ) :
    ∀ (ds : List ℕ) (st : ℕ × ℕ) (l : ℕ), l ∈ ds →
      nbr.count l ≤ (ds.foldl
        (fun st l => if nbr.count l > st.2 then (l, nbr.count l) else st) st).2 := by
  intro ds
  induction ds with
  | nil => intro st l h; cases h
  | cons d ds ih =>
    intro st l hl
    simp only [List.foldl_cons]
    rcases List.mem_cons.mp hl with rfl | hl
    · refine le_trans ?_ (bestFold_snd_mono nbr ds _)
      split_ifs with h
      · exact le_refl _
      · exact le_of_not_lt h
    · exact ih _ l hl

lemma bestFold_result (nbr : List ℕ) :
    ∀ (ds : List ℕ) (st : ℕ × ℕ),
      (ds.foldl
          (fun st l => if nbr.count l > st.2 then (l, nbr.count l) else st) st) = st ∨
      ((ds.foldl
          (fun st l => if nbr.count l > st.2 then (l, nbr.count l) else st) st).1 ∈ ds ∧
        (ds.foldl
          (fun st l => if nbr.count l > st.2 then (l, nbr.count l) else st) st).2 =
          nbr.count (ds.foldl
            (fun st l => if nbr.count l > st.2 then (l, nbr.count l) else st) st).1) := by
  intro ds
  induction ds with
  | nil => intro st; exact Or.inl rfl
  | cons d ds ih =>
    intro st
    simp only [List.foldl_cons]
    split_ifs with h
    · rcases ih (d, nbr.count d) with heq | ⟨hmem, hcnt⟩
      · rw [heq]
        exact Or.inr ⟨List.mem_cons_self d ds, rfl⟩
      · exact Or.inr ⟨List.mem_cons_of_mem d hmem, hcnt⟩
    · rcases ih st with heq | ⟨hmem, hcnt⟩
      · exact Or.inl heq
      · exact Or.inr ⟨List.mem_cons_of_mem d hmem, hcnt⟩

/-- The best-label scan selects a neighbor label of maximal count (with its
count) whenever any occupied neighbor exists. -/
lemma bestLabelCount_spec (orig : ℕ) (nbr : List ℕ) (hn : nbr ≠ []) :
    (bestLabelCount orig nbr).1 ∈ nbr ∧
    (bestLabelCount orig nbr).2 = nbr.count (bestLabelCount orig nbr).1 ∧
    ∀ l ∈ nbr, nbr.count l ≤ (bestLabelCount orig nbr).2 := by
  obtain ⟨l0, hl0⟩ := List.exists_mem_of_ne_nil nbr hn
  have hl0d : l0 ∈ dedupFirst nbr := (dedupFirst_mem nbr l0).mpr hl0
  have hcnt0 : 0 < nbr.count l0 := List.count_pos_iff_mem.mpr hl0
  have hge : ∀ l ∈ nbr, nbr.count l ≤ (bestLabelCount orig nbr).2 := by
    intro l hl
    exact bestFold_ge_count nbr (dedupFirst nbr) (orig, 0) l
      ((dedupFirst_mem nbr l).mpr hl)
  rcases bestFold_result nbr (dedupFirst nbr) (orig, 0) with heq | ⟨hmem, hcnt⟩
  · exfalso
    have h0 : (bestLabelCount orig nbr).2 = 0 := by
      unfold bestLabelCount
      rw [heq]
    have := hge l0 hl0
    omega
  · exact ⟨(dedupFirst_mem nbr _).mp hmem, hcnt, hge⟩

lemma smoothLabels_getD (coords : List (ℤ × ℤ × ℤ)) (labels : List ℕ)
    (t i : ℕ) (hi : i < labels.length) :
    (smoothLabels coords labels t).getD i 0 = smoothOne coords labels t i := by
  unfold smoothLabels
  rw [List.getD_eq_getElem _ _ (by simpa using hi)]
  simp

/-- C5 amended: each voxel is re-labeled exactly when it has at least one
occupied 6-neighbor and the maximal neighbor-label count meets the threshold,
and then it takes the label selected by the scan — a neighbor label of
maximal count, the first-encountered one on ties (not necessarily the
original label). -/
theorem c5_smoothing_amended (coords : List (ℤ × ℤ × ℤ)) (labels : List ℕ)
    (t i : ℕ) (hlen : coords.length = labels.length) (hi : i < labels.length) :
    ((smoothLabels coords labels t).getD i 0 =
      (if neighborLabels coords labels (coords.getD i (0, 0, 0)) ≠ [] ∧
          t ≤ (bestLabelCount (labels.getD i 0)
            (neighborLabels coords labels (coords.getD i (0, 0, 0)))).2 then
        (bestLabelCount (labels.getD i 0)
          (neighborLabels coords labels (coords.getD i (0, 0, 0)))).1
      else labels.getD i 0)) ∧
    (neighborLabels coords labels (coords.getD i (0, 0, 0)) ≠ [] →
      (bestLabelCount (labels.getD i 0)
        (neighborLabels coords labels (coords.getD i (0, 0, 0)))).1 ∈
        neighborLabels coords labels (coords.getD i (0, 0, 0)) ∧
      ∀ l ∈ neighborLabels coords labels (coords.getD i (0, 0, 0)),
        (neighborLabels coords labels (coords.getD i (0, 0, 0))).count l ≤
          (bestLabelCount (labels.getD i 0)
            (neighborLabels coords labels (coords.getD i (0, 0, 0)))).2) := by
  constructor
  · rw [smoothLabels_getD coords labels t i hi]
    unfold smoothOne
    dsimp only
    by_cases hne : neighborLabels coords labels (coords.getD i (0, 0, 0)) = []
    · rw [if_pos hne, if_neg (fun h => h.1 hne)]
    · rw [if_neg hne]
      by_cases ht : t ≤ (bestLabelCount (labels.getD i 0)
          (neighborLabels coords labels (coords.getD i (0, 0, 0)))).2
      · rw [if_pos (by exact ht), if_pos ⟨hne, ht⟩]
      · rw [if_neg (by exact ht), if_neg (by rintro ⟨_, h⟩; exact ht h)]
  · intro hne
    obtain ⟨h1, _, h3⟩ := bestLabelCount_spec (labels.getD i 0) _ hne
    exact ⟨h1, h3⟩

/-- C5 counterexample: with threshold 3, the center voxel of a 6-neighbor
configuration whose neighbor labels tie 3-3 between labels 1 and 2 is
re-labeled to 1 (the tied label first encountered in the scan order), not
kept at its original label 0 — refuting the claim that ties keep the
original label. -/
theorem c5_smoothing_tie_counterexample :
    (neighborLabels [(0, 0, 0), (1, 0, 0), (-1, 0, 0), (0, 1, 0), (0, -1, 0),
        (0, 0, 1), (0, 0, -1)] [0, 1, 1, 1, 2, 2, 2] (0, 0, 0)).count 1 = 3 ∧
    (neighborLabels [(0, 0, 0), (1, 0, 0), (-1, 0, 0), (0, 1, 0), (0, -1, 0),
        (0, 0, 1), (0, 0, -1)] [0, 1, 1, 1, 2, 2, 2] (0, 0, 0)).count 2 = 3 ∧
    (∀ l ∈ neighborLabels [(0, 0, 0), (1, 0, 0), (-1, 0, 0), (0, 1, 0),
        (0, -1, 0), (0, 0, 1), (0, 0, -1)] [0, 1, 1, 1, 2, 2, 2] (0, 0, 0),
      (neighborLabels [(0, 0, 0), (1, 0, 0), (-1, 0, 0), (0, 1, 0), (0, -1, 0),
        (0, 0, 1), (0, 0, -1)] [0, 1, 1, 1, 2, 2, 2] (0, 0, 0)).count l ≤ 3) ∧
    [0, 1, 1, 1, 2, 2, 2].getD 0 99 = 0 ∧
    (smoothLabels [(0, 0, 0), (1, 0, 0), (-1, 0, 0), (0, 1, 0), (0, -1, 0),
        (0, 0, 1), (0, 0, -1)] [0, 1, 1, 1, 2, 2, 2] 3).getD 0 99 = 1 := by
  refine ⟨by decide, by decide, by decide, by decide, by decide⟩


/-- C5 witness: the amended characterization instantiated at the tie
configuration with the default threshold 4 (where the 3-3 tie misses the
threshold, so the original label is kept). -/
theorem c5_smoothing_amended_witness :
    (smoothLabels [(0, 0, 0), (1, 0, 0), (-1, 0, 0), (0, 1, 0), (0, -1, 0),
        (0, 0, 1), (0, 0, -1)] [0, 1, 1, 1, 2, 2, 2] 4).getD 0 0 =
      (if neighborLabels [(0, 0, 0), (1, 0, 0), (-1, 0, 0), (0, 1, 0),
            (0, -1, 0), (0, 0, 1), (0, 0, -1)] [0, 1, 1, 1, 2, 2, 2]
            (([(0, 0, 0), (1, 0, 0), (-1, 0, 0), (0, 1, 0), (0, -1, 0),
              (0, 0, 1), (0, 0, -1)] : List (ℤ × ℤ × ℤ)).getD 0 (0, 0, 0)) ≠ [] ∧
          4 ≤ (bestLabelCount (([0, 1, 1, 1, 2, 2, 2] : List ℕ).getD 0 0)
            (neighborLabels [(0, 0, 0), (1, 0, 0), (-1, 0, 0), (0, 1, 0),
              (0, -1, 0), (0, 0, 1), (0, 0, -1)] [0, 1, 1, 1, 2, 2, 2]
              (([(0, 0, 0), (1, 0, 0), (-1, 0, 0), (0, 1, 0), (0, -1, 0),
                (0, 0, 1), (0, 0, -1)] : List (ℤ × ℤ × ℤ)).getD 0 (0, 0, 0)))).2 then
        (bestLabelCount (([0, 1, 1, 1, 2, 2, 2] : List ℕ).getD 0 0)
          (neighborLabels [(0, 0, 0), (1, 0, 0), (-1, 0, 0), (0, 1, 0),
            (0, -1, 0), (0, 0, 1), (0, 0, -1)] [0, 1, 1, 1, 2, 2, 2]
            (([(0, 0, 0), (1, 0, 0), (-1, 0, 0), (0, 1, 0), (0, -1, 0),
              (0, 0, 1), (0, 0, -1)] : List (ℤ × ℤ × ℤ)).getD 0 (0, 0, 0)))).1
      else ([0, 1, 1, 1, 2, 2, 2] : List ℕ).getD 0 0) :=
  (c5_smoothing_amended [(0, 0, 0), (1, 0, 0), (-1, 0, 0), (0, 1, 0),
    (0, -1, 0), (0, 0, 1), (0, 0, -1)] [0, 1, 1, 1, 2, 2, 2] 4 0 rfl (by decide)).1


/-- C9: whatever the deflate backend does, a PNG byte stream whose parsed
header chunk declares a nonzero interlace flag or a bit depth other than 8 is
rejected by the fallback decoder with a raised error; no pixel buffer (`.ok`)
is produced. -/
theorem c9_png_reject (inflate : List ℕ → Option (List ℕ)) (payload : List ℕ)
    (st : PngChunkState) (h : IhdrData)
    (hp : parsePngChunks payload = .ok st)
    (hh : st.ihdr = some h)
    (hbad : h.interlace ≠ 0 ∨ h.bitDepth ≠ 8) :
    ∃ e, decodePngRgba inflate payload = .error e := by
  unfold decodePngRgba
  by_cases hsig : pngSignature.isPrefixOf payload
  · rw [if_pos hsig, hp]
    simp only [hh]
    by_cases hil : h.interlace ≠ 0
    · rw [if_pos hil]
      exact ⟨_, rfl⟩
    · rw [if_neg hil]
      rcases hbad with hbad | hbad
      · exact absurd hbad hil
      · rw [if_pos hbad]
        exact ⟨_, rfl⟩
  · rw [if_neg hsig]
    exact ⟨_, rfl⟩

/-- C9 witness: a well-formed 1×1 truecolor-with-alpha header declaring
interlace mode 1 is rejected by the decoder, for an inert deflate backend. -/
theorem c9_png_reject_witness :
    ∃ e, decodePngRgba (fun _ => none)
      (pngSignature ++ [0, 0, 0, 13] ++ ihdrTag ++
        [0, 0, 0, 1, 0, 0, 0, 1, 8, 6, 0, 0, 1] ++ [0, 0, 0, 0]) = .error e :=
  c9_png_reject (fun _ => none)
    (pngSignature ++ [0, 0, 0, 13] ++ ihdrTag ++
      [0, 0, 0, 1, 0, 0, 0, 1, 8, 6, 0, 0, 1] ++ [0, 0, 0, 0])
    ⟨some ⟨1, 1, 8, 6, 1⟩, none, none, []⟩ ⟨1, 1, 8, 6, 1⟩ rfl rfl
    (Or.inl (by decide))


/-- C6: for a voxel equidistant (any distance up to 10⁹ grid units) from
exactly two samples, the k = 2 inverse-distance weights `1/max(d, 1e-3)`
normalize to `[1/2, 1/2]` (they sum to 1), and the transferred color of a red
and a green opaque sample is `(127.5, 127.5, 0, 255)`. -/
theorem c6_transfer_weighting (uta : Bool) (d : ℚ) (h0 : 0 ≤ d)
    (hb : d ≤ 10 ^ 9) :
    transferWeights [d, d] = [1 / 2, 1 / 2] ∧
    (transferWeights [d, d]).sum = 1 ∧
    colorTransfer uta [d, d] [⟨255, 0, 0, 255⟩, ⟨0, 255, 0, 255⟩] =
      ⟨255 / 2, 255 / 2, 0, 255⟩ := by
  have hm_ge : 1 / 1000 ≤ qmax d (1 / 1000) := by
    unfold qmax
    split_ifs with h
    · exact le_refl _
    · linarith [not_le.mp h]
  have hm_le : qmax d (1 / 1000) ≤ 10 ^ 9 := by
    unfold qmax
    split_ifs with h
    · norm_num
    · exact hb
  have hm0 : 0 < qmax d (1 / 1000) := lt_of_lt_of_le (by norm_num) hm_ge
  have hw : transferWeights [d, d] = [1 / 2, 1 / 2] := by
    unfold transferWeights
    dsimp only
    simp only [List.map_cons, List.map_nil, List.sum_cons, List.sum_nil]
    have hs : qmax (1 / qmax d (1 / 1000) + (1 / qmax d (1 / 1000) + 0))
        (1 / 10 ^ 12) = 2 / qmax d (1 / 1000) := by
      have hlt : (1 : ℚ) / 10 ^ 12 < 2 / qmax d (1 / 1000) := by
        rw [div_lt_div_iff (by norm_num) hm0]
        nlinarith
      have hsum2 : 1 / qmax d (1 / 1000) + (1 / qmax d (1 / 1000) + 0) =
          2 / qmax d (1 / 1000) := by ring
      rw [hsum2]
      show (if 2 / qmax d (1 / 1000) ≤ 1 / 10 ^ 12 then (1 : ℚ) / 10 ^ 12
        else 2 / qmax d (1 / 1000)) = 2 / qmax d (1 / 1000)
      rw [if_neg (not_le.mpr hlt)]
    rw [hs]
    have hhalf : 1 / qmax d (1 / 1000) / (2 / qmax d (1 / 1000)) = 1 / 2 := by
      field_simp
    rw [hhalf]
  refine ⟨hw, by rw [hw]; norm_num, ?_⟩
  unfold colorTransfer
  rw [hw]
  have hsumc : weightedColorSum [1 / 2, 1 / 2]
      [⟨255, 0, 0, 255⟩, ⟨0, 255, 0, 255⟩] = ⟨255 / 2, 255 / 2, 0, 255⟩ := by
    unfold weightedColorSum
    simp only [List.zip_cons_cons, List.zip_nil_right, List.foldl_cons,
      List.foldl_nil]
    simp only [Color.mk.injEq]
    refine ⟨?_, ?_, ?_, ?_⟩ <;> norm_num
  rw [hsumc]
  have hclip : clipColor ⟨255 / 2, 255 / 2, 0, 255⟩ = ⟨255 / 2, 255 / 2, 0, 255⟩ := by
    unfold clipColor clipQ qmin qmax
    norm_num
  rw [hclip]
  cases uta <;> rfl

/-- C6 witness: the concrete equidistant case at distance 5. -/
theorem c6_transfer_weighting_witness :
    transferWeights [5, 5] = [1 / 2, 1 / 2] ∧
    (transferWeights [5, 5]).sum = 1 ∧
    colorTransfer false [5, 5] [⟨255, 0, 0, 255⟩, ⟨0, 255, 0, 255⟩] =
      ⟨255 / 2, 255 / 2, 0, 255⟩ :=
  c6_transfer_weighting false 5 (by norm_num) (by norm_num)


/-! ### Face-path variance lemmas (for C4, C8) -/

lemma stdAccept_of_var_four :
    stdAccept [⟨4, 4, 4, 255⟩, ⟨0, 0, 0, 255⟩] := by
  unfold stdAccept
  have hr : ([(⟨4, 4, 4, 255⟩ : Color), ⟨0, 0, 0, 255⟩].map Color.r) = [4, 0] := rfl
  have hg : ([(⟨4, 4, 4, 255⟩ : Color), ⟨0, 0, 0, 255⟩].map Color.g) = [4, 0] := rfl
  have hb : ([(⟨4, 4, 4, 255⟩ : Color), ⟨0, 0, 0, 255⟩].map Color.b) = [4, 0] := rfl
  have hv : chanVar [4, 0] = 4 := by with_unfolding_all decide
  rw [hr, hg, hb, hv]
  have hs : Real.sqrt ((4 : ℚ) : ℝ) = 2 := by
    rw [show ((4 : ℚ) : ℝ) = 2 ^ 2 by norm_num]
    exact Real.sqrt_sq (by norm_num)
  rw [hs]
  norm_num

lemma not_stdAccept_outlier_table :
    ¬ stdAccept (⟨4, 4, 4, 255⟩ :: List.replicate 16 ⟨0, 0, 0, 255⟩) := by
  unfold stdAccept
  have hr : chanVar ((⟨4, 4, 4, 255⟩ :: List.replicate 16 ⟨0, 0, 0, 255⟩).map
      Color.r) = 256 / 289 := by with_unfolding_all decide
  have hg : chanVar ((⟨4, 4, 4, 255⟩ :: List.replicate 16 ⟨0, 0, 0, 255⟩).map
      Color.g) = 256 / 289 := by with_unfolding_all decide
  have hb : chanVar ((⟨4, 4, 4, 255⟩ :: List.replicate 16 ⟨0, 0, 0, 255⟩).map
      Color.b) = 256 / 289 := by with_unfolding_all decide
  rw [hr, hg, hb]
  have hs : Real.sqrt ((256 / 289 : ℚ) : ℝ) = 16 / 17 := by
    rw [show ((256 / 289 : ℚ) : ℝ) = (16 / 17) ^ 2 by norm_num]
    exact Real.sqrt_sq (by norm_num)
  rw [hs]
  norm_num

lemma not_stdAccept_uniform :
    ¬ stdAccept [(⟨5, 5, 5, 255⟩ : Color), ⟨5, 5, 5, 255⟩] := by
  unfold stdAccept
  have hr : chanVar ([(⟨5, 5, 5, 255⟩ : Color), ⟨5, 5, 5, 255⟩].map Color.r) = 0 := by
    with_unfolding_all decide
  have hg : chanVar ([(⟨5, 5, 5, 255⟩ : Color), ⟨5, 5, 5, 255⟩].map Color.g) = 0 := by
    with_unfolding_all decide
  have hb : chanVar ([(⟨5, 5, 5, 255⟩ : Color), ⟨5, 5, 5, 255⟩].map Color.b) = 0 := by
    with_unfolding_all decide
  rw [hr, hg, hb]
  norm_num

/-- C4 counterexample: the outlier-table mesh sampled at faces `[0, 1]` — the
per-face color path is accepted (the mean channel std of the sampled rows is 2 ≥ 1)
even though the mean channel std across all 17 faces of the mesh is
16/17 < 1.  The acceptance test of the source runs on the sampled rows, not
on the per-face table. -/
theorem c4_facepath_counterexample :
    pathFaceTableCandidate outlierFaceMesh [0, 1] USE_TEXTURE_ALPHA =
      some [⟨4, 4, 4, 255⟩, ⟨0, 0, 0, 255⟩] ∧
    stdAccept [⟨4, 4, 4, 255⟩, ⟨0, 0, 0, 255⟩] ∧
    facePathAccepts outlierFaceMesh [0, 1] USE_TEXTURE_ALPHA ∧
    ¬ stdAccept (⟨4, 4, 4, 255⟩ :: List.replicate 16 ⟨0, 0, 0, 255⟩) := by
  have hc : pathFaceTableCandidate outlierFaceMesh [0, 1] USE_TEXTURE_ALPHA =
      some [⟨4, 4, 4, 255⟩, ⟨0, 0, 0, 255⟩] := by
    with_unfolding_all decide
  exact ⟨hc, stdAccept_of_var_four,
    ⟨_, hc, stdAccept_of_var_four⟩, not_stdAccept_outlier_table⟩

/-- C4 amended: the per-face color-table path is accepted only if the mean
cross-channel standard deviation of the **sampled** rows (the table rows
selected by the per-sample face indices) is at least 1; when that sampled
spread is below 1 the path is rejected and resolution falls through to the
per-vertex strategy chain. -/
theorem c4_facepath_amended (m : MeshData) (fi : List ℕ) (uta : Bool)
    (cs : List Color)
    (hc : pathFaceTableCandidate m fi uta = some cs)
    (hv : ¬ stdAccept cs) :
    ¬ facePathAccepts m fi uta ∧
    (∀ out, faceChain m fi uta out ↔ vertexChain m fi uta out) := by
  constructor
  · rintro ⟨cs2, hc2, hacc⟩
    rw [hc] at hc2
    cases Option.some.inj hc2
    exact hv hacc
  · intro out
    unfold faceChain
    simp only [hc]
    constructor
    · rintro (⟨ha, _⟩ | ⟨_, h⟩)
      · exact absurd ha hv
      · exact h
    · intro h
      exact Or.inr ⟨hv, h⟩

/-- C4 witness: the constant-color table is rejected and the chain falls
through. -/
theorem c4_facepath_amended_witness :
    ¬ facePathAccepts uniformFaceMesh [0, 1] USE_TEXTURE_ALPHA ∧
    (∀ out, faceChain uniformFaceMesh [0, 1] USE_TEXTURE_ALPHA out ↔
      vertexChain uniformFaceMesh [0, 1] USE_TEXTURE_ALPHA out) :=
  c4_facepath_amended uniformFaceMesh [0, 1] USE_TEXTURE_ALPHA
    [⟨5, 5, 5, 255⟩, ⟨5, 5, 5, 255⟩] (by with_unfolding_all decide)
    not_stdAccept_uniform

/-- C8: `_sample_face_colors` never raises (the resolver relation is total
over its decidable guards) and when the UV-texture, base-color-factor,
per-face-color and per-vertex-color strategies all fail — structurally or by
the variance test — the returned array is the flat neutral gray
`(140, 140, 140, 255)` for every sample. -/
theorem c8_neutral_fallback (m : MeshData) (pts : List (ℚ × ℚ × ℚ))
    (fi : List ℕ) (uta : Bool)
    (hfi : fi ≠ [])
    (h1 : pathUvTexture m pts fi uta = none)
    (h1b : pathBaseColorFactor m fi uta = none)
    (h2 : pathFaceTableCandidate m fi uta = none ∨
      ∃ cs, pathFaceTableCandidate m fi uta = some cs ∧ ¬ stdAccept cs)
    (h3 : pathVertexColorCandidate m fi uta = none ∨
      ∃ cs, pathVertexColorCandidate m fi uta = some cs ∧ ¬ stdAccept cs) :
    ∀ out, sampleFaceColors m pts fi uta out ↔ out = neutralTile fi.length := by
  intro out
  have hvc : vertexChain m fi uta out ↔ out = neutralTile fi.length := by
    unfold vertexChain
    rcases h3 with h3 | ⟨cs, h3, hv⟩
    · simp only [h3]
    · simp only [h3]
      constructor
      · rintro (⟨ha, _⟩ | ⟨_, h⟩)
        · exact absurd ha hv
        · exact h
      · intro h
        exact Or.inr ⟨hv, h⟩
  have hfc : faceChain m fi uta out ↔ out = neutralTile fi.length := by
    unfold faceChain
    rcases h2 with h2 | ⟨cs, h2, hv⟩
    · simp only [h2]
      exact hvc
    · simp only [h2]
      constructor
      · rintro (⟨ha, _⟩ | ⟨_, h⟩)
        · exact absurd ha hv
        · exact hvc.mp h
      · intro h
        exact Or.inr ⟨hv, hvc.mpr h⟩
  unfold sampleFaceColors
  rw [if_neg hfi]
  simp only [h1, h1b]
  exact hfc

/-- C8 witness: on a mesh with no texture, no material factor, no face-color
table and no vertex colors, the resolver yields neutral gray for the single
sample. -/
theorem c8_neutral_fallback_witness :
    sampleFaceColors bareMesh [(0, 0, 0)] [0] USE_TEXTURE_ALPHA
      [⟨140, 140, 140, 255⟩] :=
  (c8_neutral_fallback bareMesh [(0, 0, 0)] [0] USE_TEXTURE_ALPHA
    (by simp) rfl rfl (Or.inl rfl) (Or.inl rfl)
    [⟨140, 140, 140, 255⟩]).mpr rfl

end GlbVox
